import Mathlib

/-
Verification of the CleverSpa API client (custom_components/clevererspa/clevererspa.py):
a shallow embedding of the local state cache, the timestamp reconciliation in
fetch_data, the control commands, and the token exchange, together with proofs
of the specified properties.

Modelling conventions:
- machine time is an explicit integer parameter (Python time() calls);
- the per-device status endpoint is a pure function from device id to response;
- the local state cache (a Python dict keyed by device id) is an association
  list with the usual lookup and overwrite operations;
- Python exceptions are explicit error values; a command returns the state as
  mutated up to the point of the exception together with the optional error,
  because side effects performed before a raise persist;
- the filter command can receive a non-string key (set_heat passes a cached
  CleverSpaDeviceStatus object where a device id string is expected), so dict
  keys are modelled by a sum of the two value kinds that actually flow there.
-/

set_option autoImplicit false

namespace ClevererSpa

/-- Connectivity window in seconds (module constant in the source). -/
def CONNECTIVITY_TIMEOUT : Int := 1000

/-- Temperature units supported by the spa. -/
inductive TemperatureUnit where
  | CELSIUS
  | FAHRENHEIT
  deriving DecidableEq, Repr

/-- A device under an account (dataclass CleverSpaDevice). -/
structure CleverSpaDevice where
  device_id : String
  dev_alias : String
  product_name : String
  deriving DecidableEq, Repr

/-- A snapshot of the status of a device (dataclass CleverSpaDeviceStatus).
The Python annotation declares filter_age as int, but the only value ever
stored there by fetch_data is the boolean comparison Time_filter == 0, so the
field is Bool here. The wave_power field is not a dataclass field at all: it
is an instance attribute dynamically added by set_filter, so it is an Option
that the constructor leaves empty. -/
structure CleverSpaDeviceStatus where
  timestamp : Int
  temp_now : Int
  temp_set : Int
  temp_set_unit : TemperatureUnit
  heat_power : Bool
  filter_power : Bool
  bubble_power : Bool
  filter_age : Bool
  errors : List Int
  wave_power : Option Bool
  deriving DecidableEq, Repr

/-- Derived attribute: online iff the latest update is younger than the
connectivity window (property CleverSpaDeviceStatus.online in the source,
timestamp > time() - CONNECTIVITY_TIMEOUT). -/
def CleverSpaDeviceStatus.online (s : CleverSpaDeviceStatus) (now : Int) : Bool :=
  decide (s.timestamp > now - CONNECTIVITY_TIMEOUT)

/-- User authentication token (dataclass CleverSpaUserToken). -/
structure CleverSpaUserToken where
  user_id : String
  user_token : String
  expiry : Int
  deriving DecidableEq, Repr

/-- A device report: device metadata plus a status snapshot. -/
structure CleverSpaDeviceReport where
  device : CleverSpaDevice
  status : CleverSpaDeviceStatus
  deriving DecidableEq, Repr

/-- Wire attributes of the device status endpoint response. -/
structure DeviceAttrs where
  Current_temperature : Int
  Temperature_setup : Int
  Heater : Int
  Filter : Int
  Bubble : Int
  Time_filter : Int
  deriving DecidableEq, Repr

/-- Response of the per-device status endpoint. -/
structure DeviceData where
  updated_at : Int
  attr : DeviceAttrs
  deriving DecidableEq, Repr

/-- Construction of a CleverSpaDeviceStatus from an accepted server response
(the constructor call inside the accept branch of fetch_data). -/
def parseDeviceStatus (latest_data : DeviceData) : CleverSpaDeviceStatus :=
  { timestamp := latest_data.updated_at
    temp_now := latest_data.attr.Current_temperature
    temp_set := latest_data.attr.Temperature_setup
    temp_set_unit := TemperatureUnit.CELSIUS
    heat_power := latest_data.attr.Heater == 1
    filter_power := latest_data.attr.Filter == 1
    bubble_power := latest_data.attr.Bubble == 1
    filter_age := latest_data.attr.Time_filter == 0
    errors := []
    wave_power := none }

/-- The local state cache: device id to status, as an association list. -/
abbrev LocalStateCache := List (String × CleverSpaDeviceStatus)

/-- Dict lookup (self local state cache .get(did)). -/
def cacheGet : LocalStateCache → String → Option CleverSpaDeviceStatus
  | [], _ => none
  | (k, v) :: rest, did => if k = did then some v else cacheGet rest did

/-- Dict write (self local state cache [did] = status), overwriting in place. -/
def cacheSet : LocalStateCache → String → CleverSpaDeviceStatus → LocalStateCache
  | [], did, s => [(did, s)]
  | (k, v) :: rest, did, s =>
      if k = did then (did, s) :: rest else (k, v) :: cacheSet rest did s

/-- Timestamp of the cached state, 0 when the device has no cache entry
(local update timestamp in fetch_data). -/
def cachedTimestamp (cache : LocalStateCache) (did : String) : Int :=
  match cacheGet cache did with
  | some cached_state => cached_state.timestamp
  | none => 0

/-- The per-device reconciliation step of fetch_data: accept and store the
response when its timestamp is greater than or equal to the cached one,
otherwise keep the cache. -/
def reconcileDevice (cache : LocalStateCache) (did : String) (latest_data : DeviceData) :
    LocalStateCache :=
  if latest_data.updated_at ≥ cachedTimestamp cache did then
    cacheSet cache did (parseDeviceStatus latest_data)
  else
    cache

/-- Python runtime errors that the embedded operations can raise. -/
inductive PyError where
  | keyError (key : String)
  | typeError (msg : String)
  | clientResponseError (status : Int)
  | authError (message : String)
  deriving DecidableEq, Repr

/-- A value used as a dict key: a device id string, or (through the slip in
set_heat) a whole CleverSpaDeviceStatus object. -/
inductive PyKey where
  | str (s : String)
  | status (s : CleverSpaDeviceStatus)
  deriving DecidableEq, Repr

/-- Client state: binding registry, local state cache, and the trace of
control POSTs issued so far (key used in the control URL, attribute, value). -/
structure ApiState where
  bindings : List (String × CleverSpaDevice)
  local_state_cache : LocalStateCache
  posts : List (PyKey × String × Int)
  deriving DecidableEq, Repr

/-- Error component of an Except result. -/
def errOf {α : Type} : Except PyError α → Option PyError
  | Except.ok _ => none
  | Except.error e => some e

/-- The loop body of fetch_data over the bindings: reconcile each device and
append its report; a missing cache entry after a rejected update raises
KeyError and aborts the batch, keeping the cache mutations made so far. -/
def fetchLoop (server : String → DeviceData) :
    List (String × CleverSpaDevice) → LocalStateCache →
    List (String × CleverSpaDeviceReport) →
    LocalStateCache × Except PyError (List (String × CleverSpaDeviceReport))
  | [], cache, results => (cache, Except.ok results)
  | (did, device_info) :: rest, cache, results =>
      match cacheGet (reconcileDevice cache did (server did)) did with
      | none =>
          (reconcileDevice cache did (server did), Except.error (PyError.keyError did))
      | some status =>
          fetchLoop server rest (reconcileDevice cache did (server did))
            (results ++ [(did, ⟨device_info, status⟩)])

/-- CleverSpaApi.fetch_data: empty bindings short-circuit to an empty report,
otherwise run the reconciliation loop over every binding. -/
def fetch_data (server : String → DeviceData) (st : ApiState) :
    ApiState × Except PyError (List (String × CleverSpaDeviceReport)) :=
  if st.bindings.isEmpty then
    (st, Except.ok [])
  else
    ({ st with local_state_cache := (fetchLoop server st.bindings st.local_state_cache []).1 },
     (fetchLoop server st.bindings st.local_state_cache []).2)

/-- CleverSpaApi.set_target_temp: POST the attribute, optimistically set the
cached timestamp and target temperature, then fetch. -/
def set_target_temp (server : String → DeviceData) (now : Int) (st : ApiState)
    (device_id : String) (target_temp : Int) : ApiState × Option PyError :=
  let st1 : ApiState :=
    { st with posts := st.posts ++ [(PyKey.str device_id, "Temperature_setup", target_temp)] }
  match cacheGet st.local_state_cache device_id with
  | none => (st1, some (PyError.keyError device_id))
  | some s =>
      let s1 := { s with timestamp := now, temp_set := target_temp }
      let st2 := { st1 with local_state_cache := cacheSet st1.local_state_cache device_id s1 }
      let r := fetch_data server st2
      (r.1, errOf r.2)

/-- Cache mutation performed by set_bubbles: timestamp to now, the bubbles
value written to filter_power, and filter_power forced on when turning on. -/
def bubblesMutation (now : Int) (s : CleverSpaDeviceStatus) (bubbles : Bool) :
    CleverSpaDeviceStatus :=
  let s1 := { s with timestamp := now, filter_power := bubbles }
  if bubbles then { s1 with filter_power := true } else s1

/-- CleverSpaApi.set_bubbles: POST the attribute, apply the cache mutation,
then fetch. -/
def set_bubbles (server : String → DeviceData) (now : Int) (st : ApiState)
    (device_id : String) (bubbles : Bool) : ApiState × Option PyError :=
  let st1 : ApiState :=
    { st with posts := st.posts ++ [(PyKey.str device_id, "Bubble", if bubbles then 1 else 0)] }
  match cacheGet st.local_state_cache device_id with
  | none => (st1, some (PyError.keyError device_id))
  | some s =>
      let st2 :=
        { st1 with
          local_state_cache := cacheSet st1.local_state_cache device_id (bubblesMutation now s bubbles) }
      let r := fetch_data server st2
      (r.1, errOf r.2)

/-- Cache mutation performed by set_filter: timestamp to now, filter_power to
the requested value; when turning off, also heat_power off and the dynamically
added wave_power attribute set to false. -/
def filterMutation (now : Int) (s : CleverSpaDeviceStatus) (filtering : Bool) :
    CleverSpaDeviceStatus :=
  let s1 := { s with timestamp := now, filter_power := filtering }
  if filtering then s1 else { s1 with wave_power := some false, heat_power := false }

/-- CleverSpaApi.set_filter: POST the attribute, then mutate the cache; no
follow-up fetch. A non-string key raises TypeError at the dict access (a
dataclass instance is unhashable), after the POST has already gone out. -/
def set_filter (now : Int) (st : ApiState) (device_id : PyKey) (filtering : Bool) :
    ApiState × Option PyError :=
  let st1 : ApiState :=
    { st with posts := st.posts ++ [(device_id, "Filter", if filtering then 1 else 0)] }
  match device_id with
  | PyKey.status _ =>
      (st1, some (PyError.typeError "unhashable type: CleverSpaDeviceStatus"))
  | PyKey.str d =>
      match cacheGet st.local_state_cache d with
      | none => (st1, some (PyError.keyError d))
      | some s =>
          ({ st1 with local_state_cache := cacheSet st1.local_state_cache d (filterMutation now s filtering) },
           none)

/-- CleverSpaApi.set_heat: POST the attribute and optimistically set the cached
timestamp and heater flag. Turning on also forces filter_power on and fetches.
Turning off fetches, sleeps 30 seconds (now2 is the clock after the sleep),
and then calls set_filter passing the cached status object where the device id
string is expected. -/
def set_heat (server : String → DeviceData) (now now2 : Int) (st : ApiState)
    (device_id : String) (heat : Bool) : ApiState × Option PyError :=
  let st1 : ApiState :=
    { st with posts := st.posts ++ [(PyKey.str device_id, "Heater", if heat then 1 else 0)] }
  match cacheGet st.local_state_cache device_id with
  | none => (st1, some (PyError.keyError device_id))
  | some s =>
      let s1 := { s with timestamp := now, heat_power := heat }
      let st2 := { st1 with local_state_cache := cacheSet st1.local_state_cache device_id s1 }
      if heat then
        let st3 :=
          { st2 with
            local_state_cache := cacheSet st2.local_state_cache device_id { s1 with filter_power := true } }
        let r := fetch_data server st3
        (r.1, errOf r.2)
      else
        let r := fetch_data server st2
        match r.2 with
        | Except.error e => (r.1, some e)
        | Except.ok _ =>
            match cacheGet r.1.local_state_cache device_id with
            | none => (r.1, some (PyError.keyError device_id))
            | some cached => set_filter now2 r.1 (PyKey.status cached) false

/-- Body of the identity-provider response: either an error payload carrying a
message, or the success payload with the local user id and session token. -/
inductive AuthJson where
  | errorJson (message : String)
  | successJson (localId : String) (idToken : String)
  deriving DecidableEq, Repr

/-- Response of the identity-provider exchange: HTTP status plus the decoded
JSON body when one could be decoded. -/
structure AuthHttpResponse where
  status : Int
  json : Option AuthJson
  deriving DecidableEq, Repr

/-- Body of the profile store record. -/
structure ProfileJson where
  uid : String
  token : String
  expire_at : Int
  deriving DecidableEq, Repr

/-- Response of the profile store fetch. -/
structure ProfileHttpResponse where
  status : Int
  json : Option ProfileJson
  deriving DecidableEq, Repr

/-- HTTP success per aiohttp: status below 400. -/
def HttpOk (status : Int) : Bool := decide (status < 400)

/-- Module-level raise_for_status helper: nothing on success; on failure the
JSON error body is parsed but (the error-code mapping being unimplemented)
discarded, and the generic HTTP status error is raised either way. -/
def raise_for_status (resp : AuthHttpResponse) : Option PyError :=
  if HttpOk resp.status then
    none
  else
    match resp.json with
    | none => some (PyError.clientResponseError resp.status)
    | some _api_error => some (PyError.clientResponseError resp.status)

/-- CleverSpaApi.get_user_token: identity exchange checked by the
raise_for_status helper, then profile store fetch checked by the aiohttp
method, then the token record is read out of the profile body. -/
def get_user_token (authResp : AuthHttpResponse)
    (profileStore : String → String → ProfileHttpResponse) :
    Except PyError CleverSpaUserToken :=
  match raise_for_status authResp with
  | some e => Except.error e
  | none =>
      match authResp.json with
      | some (AuthJson.successJson localId idToken) =>
          let info := profileStore localId idToken
          if HttpOk info.status then
            match info.json with
            | some p => Except.ok ⟨p.uid, p.token, p.expire_at⟩
            | none => Except.error (PyError.keyError "uid")
          else
            Except.error (PyError.clientResponseError info.status)
      | some (AuthJson.errorJson _) => Except.error (PyError.keyError "localId")
      | none => Except.error (PyError.keyError "localId")

/-- Lookup after overwriting the same key. -/
theorem cacheGet_cacheSet_self (c : LocalStateCache) (k : String) (v : CleverSpaDeviceStatus) :
    cacheGet (cacheSet c k v) k = some v := by
  induction c with
  | nil => simp [cacheSet, cacheGet]
  | cons kv rest ih =>
      obtain ⟨k0, v0⟩ := kv
      by_cases h : k0 = k
      · simp [cacheSet, cacheGet, h]
      · simp [cacheSet, cacheGet, h, ih]

/-- Lookup of a different key is unchanged by an overwrite. -/
theorem cacheGet_cacheSet_other (c : LocalStateCache) (k k2 : String)
    (v : CleverSpaDeviceStatus) (h : k2 ≠ k) :
    cacheGet (cacheSet c k v) k2 = cacheGet c k2 := by
  induction c with
  | nil => simp [cacheSet, cacheGet, Ne.symm h]
  | cons kv rest ih =>
      obtain ⟨k0, v0⟩ := kv
      by_cases h0 : k0 = k
      · subst h0
        simp [cacheSet, cacheGet, Ne.symm h]
      · simp [cacheSet, cacheGet, h0, ih]

/-- Overwriting a key with the value it already holds is the identity. -/
theorem cacheSet_eq_of_get (c : LocalStateCache) (k : String) (v : CleverSpaDeviceStatus)
    (h : cacheGet c k = some v) : cacheSet c k v = c := by
  induction c with
  | nil => simp [cacheGet] at h
  | cons kv rest ih =>
      obtain ⟨k0, v0⟩ := kv
      by_cases h0 : k0 = k
      · subst h0
        have h2 : v0 = v := by simpa [cacheGet] using h
        simp [cacheSet, h2]
      · simp only [cacheGet, if_neg h0] at h
        simp [cacheSet, h0, ih h]

/-- Cached timestamp of a present entry. -/
theorem cachedTimestamp_eq (c : LocalStateCache) (did : String) (s : CleverSpaDeviceStatus)
    (hc : cacheGet c did = some s) : cachedTimestamp c did = s.timestamp := by
  unfold cachedTimestamp
  rw [hc]

/-- Cached timestamp of an absent entry. -/
theorem cachedTimestamp_none (c : LocalStateCache) (did : String)
    (hc : cacheGet c did = none) : cachedTimestamp c did = 0 := by
  unfold cachedTimestamp
  rw [hc]

/-- Caches agreeing on a key have the same cached timestamp there. -/
theorem cachedTimestamp_congr (c c2 : LocalStateCache) (did : String)
    (h : cacheGet c did = cacheGet c2 did) : cachedTimestamp c did = cachedTimestamp c2 did := by
  unfold cachedTimestamp
  rw [h]

/-- Reconciling one device does not touch the entry of another. -/
theorem reconcileDevice_other (c : LocalStateCache) (did did2 : String)
    (d : DeviceData) (h : did2 ≠ did) :
    cacheGet (reconcileDevice c did d) did2 = cacheGet c did2 := by
  unfold reconcileDevice
  split
  · exact cacheGet_cacheSet_other c did did2 _ h
  · rfl

/-- A response below the reconciliation threshold leaves the cache unchanged. -/
theorem reconcileDevice_reject (c : LocalStateCache) (did : String) (d : DeviceData)
    (h : ¬ d.updated_at ≥ cachedTimestamp c did) : reconcileDevice c did d = c := by
  unfold reconcileDevice
  rw [if_neg h]

/-- A stale response (timestamp strictly below the cached one) is discarded. -/
theorem reconcileDevice_stale (c : LocalStateCache) (did : String) (d : DeviceData)
    (s : CleverSpaDeviceStatus) (hc : cacheGet c did = some s)
    (hts : d.updated_at < s.timestamp) : reconcileDevice c did d = c := by
  apply reconcileDevice_reject
  rw [cachedTimestamp_eq c did s hc]
  omega

/-- A response at least as new as the cached timestamp is accepted and stored. -/
theorem reconcileDevice_fresh (c : LocalStateCache) (did : String) (d : DeviceData)
    (h : d.updated_at ≥ cachedTimestamp c did) :
    reconcileDevice c did d = cacheSet c did (parseDeviceStatus d) := by
  unfold reconcileDevice
  rw [if_pos h]

/-- Defining equation of the fetch loop on a nonempty binding list. -/
theorem fetchLoop_cons (server : String → DeviceData) (k : String) (dv : CleverSpaDevice)
    (rest : List (String × CleverSpaDevice)) (c : LocalStateCache)
    (acc : List (String × CleverSpaDeviceReport)) :
    fetchLoop server ((k, dv) :: rest) c acc =
      match cacheGet (reconcileDevice c k (server k)) k with
      | none => (reconcileDevice c k (server k), Except.error (PyError.keyError k))
      | some status =>
          fetchLoop server rest (reconcileDevice c k (server k))
            (acc ++ [(k, ⟨dv, status⟩)]) := rfl

/-- The result list of a successful fetch loop extends the accumulator. -/
theorem fetchLoop_results_extend (server : String → DeviceData) :
    ∀ (bs : List (String × CleverSpaDevice)) (c : LocalStateCache)
      (acc : List (String × CleverSpaDeviceReport)) (c1 : LocalStateCache)
      (res : List (String × CleverSpaDeviceReport)),
      fetchLoop server bs c acc = (c1, Except.ok res) → ∃ tail, res = acc ++ tail := by
  intro bs
  induction bs with
  | nil =>
      intro c acc c1 res h
      simp only [fetchLoop, Prod.mk.injEq, Except.ok.injEq] at h
      exact ⟨[], by simp [← h.2]⟩
  | cons hd rest ih =>
      obtain ⟨did, dinfo⟩ := hd
      intro c acc c1 res h
      rw [fetchLoop_cons] at h
      split at h
      · simp at h
      · rename_i status hx
        obtain ⟨tail, ht⟩ := ih _ _ _ _ h
        exact ⟨(did, ⟨dinfo, status⟩) :: tail, by simp [ht]⟩

/-- The fetch loop leaves cache entries of devices outside the bindings alone. -/
theorem fetchLoop_preserve (server : String → DeviceData) :
    ∀ (bs : List (String × CleverSpaDevice)) (c : LocalStateCache)
      (acc : List (String × CleverSpaDeviceReport)) (did : String),
      did ∉ bs.map Prod.fst →
      cacheGet (fetchLoop server bs c acc).1 did = cacheGet c did := by
  intro bs
  induction bs with
  | nil =>
      intro c acc did _
      simp [fetchLoop]
  | cons hd rest ih =>
      obtain ⟨k, dv⟩ := hd
      intro c acc did hmem
      simp only [List.map_cons, List.mem_cons, not_or] at hmem
      have hne : did ≠ k := hmem.1
      rw [fetchLoop_cons]
      split
      · exact reconcileDevice_other c k did _ hne
      · rw [ih _ _ _ hmem.2, reconcileDevice_other c k did _ hne]

/-- A device whose cached entry is strictly newer than the response the server
gives for it keeps that entry across the whole fetch loop. -/
theorem fetchLoop_stale (server : String → DeviceData) :
    ∀ (bs : List (String × CleverSpaDevice)) (c : LocalStateCache)
      (acc : List (String × CleverSpaDeviceReport)) (did : String)
      (s : CleverSpaDeviceStatus),
      cacheGet c did = some s → (server did).updated_at < s.timestamp →
      cacheGet (fetchLoop server bs c acc).1 did = some s := by
  intro bs
  induction bs with
  | nil =>
      intro c acc did s hc _
      simpa [fetchLoop] using hc
  | cons hd rest ih =>
      obtain ⟨k, dv⟩ := hd
      intro c acc did s hc hts
      by_cases hk : k = did
      · subst hk
        have hrec : reconcileDevice c k (server k) = c :=
          reconcileDevice_stale c k (server k) s hc hts
        rw [fetchLoop_cons, hrec]
        split
        · exact hc
        · exact ih _ _ _ _ hc hts
      · have hrec : cacheGet (reconcileDevice c k (server k)) did = some s := by
          rw [reconcileDevice_other c k did _ (fun hh => hk hh.symm), hc]
        rw [fetchLoop_cons]
        split
        · exact hrec
        · exact ih _ _ _ _ hrec hts

/-- Per-device specification of the fetch loop on a duplicate-free binding
list: a response at least as new as the cache overwrites the entry and the
parsed response is reported; a stale response is discarded and the cached
value is kept and reported. -/
theorem fetchLoop_reconcile (server : String → DeviceData) :
    ∀ (bs : List (String × CleverSpaDevice)) (c : LocalStateCache)
      (acc : List (String × CleverSpaDeviceReport)) (c1 : LocalStateCache)
      (res : List (String × CleverSpaDeviceReport)) (did : String) (dev : CleverSpaDevice),
      (bs.map Prod.fst).Nodup →
      fetchLoop server bs c acc = (c1, Except.ok res) →
      (did, dev) ∈ bs →
      ((server did).updated_at ≥ cachedTimestamp c did →
         cacheGet c1 did = some (parseDeviceStatus (server did)) ∧
         (did, (⟨dev, parseDeviceStatus (server did)⟩ : CleverSpaDeviceReport)) ∈ res) ∧
      ((server did).updated_at < cachedTimestamp c did →
         ∃ s, cacheGet c did = some s ∧ cacheGet c1 did = some s ∧
           (did, (⟨dev, s⟩ : CleverSpaDeviceReport)) ∈ res) := by
  intro bs
  induction bs with
  | nil =>
      intro c acc c1 res did dev _ _ hmem
      cases hmem
  | cons hd rest ih =>
      obtain ⟨k, dv⟩ := hd
      intro c acc c1 res did dev hnd h hmem
      have hcons : (k :: rest.map Prod.fst).Nodup := hnd
      have hk : k ∉ rest.map Prod.fst := (List.nodup_cons.mp hcons).1
      have hnd2 : (rest.map Prod.fst).Nodup := (List.nodup_cons.mp hcons).2
      rw [fetchLoop_cons] at h
      split at h
      · simp at h
      · rename_i status hx
        rcases List.mem_cons.mp hmem with hhd | hrest
        · -- the device is the head binding
          obtain ⟨hdid, hdev⟩ := Prod.mk.injEq .. ▸ hhd
          subst hdid
          subst hdev
          have hpres : cacheGet c1 did = cacheGet (reconcileDevice c did (server did)) did := by
            have := fetchLoop_preserve server rest (reconcileDevice c did (server did))
              (acc ++ [(did, ⟨dev, status⟩)]) did hk
            rw [h] at this
            exact this
          obtain ⟨tail, htail⟩ := fetchLoop_results_extend server rest _ _ _ _ h
          constructor
          · intro hge
            have hrec : reconcileDevice c did (server did)
                = cacheSet c did (parseDeviceStatus (server did)) :=
              reconcileDevice_fresh c did (server did) hge
            have hget : cacheGet (reconcileDevice c did (server did)) did
                = some (parseDeviceStatus (server did)) := by
              rw [hrec]
              exact cacheGet_cacheSet_self c did _
            have hstatus : status = parseDeviceStatus (server did) := by
              rw [hx] at hget
              exact (Option.some.injEq .. ▸ hget)
            refine ⟨by rw [hpres, hget], ?_⟩
            rw [htail, hstatus]
            simp
          · intro hlt
            rcases hcg : cacheGet c did with _ | s
            · exfalso
              have h0 : cachedTimestamp c did = 0 := cachedTimestamp_none c did hcg
              have hrec : reconcileDevice c did (server did) = c :=
                reconcileDevice_reject c did (server did) (by omega)
              rw [hrec, hcg] at hx
              cases hx
            · have hst : cachedTimestamp c did = s.timestamp := cachedTimestamp_eq c did s hcg
              have hrec : reconcileDevice c did (server did) = c :=
                reconcileDevice_reject c did (server did) (by omega)
              have hstatus : status = s := by
                rw [hrec, hcg] at hx
                exact (Option.some.injEq .. ▸ hx).symm
              refine ⟨s, rfl, ?_, ?_⟩
              · rw [hpres, hrec, hcg]
              · rw [htail, hstatus]
                simp
        · -- the device is in the tail: the head reconciliation leaves it alone
          have hne : did ≠ k := by
            intro hdk
            exact hk (hdk ▸ (List.mem_map.mpr ⟨(did, dev), hrest, rfl⟩))
          have hcg : cacheGet (reconcileDevice c k (server k)) did = cacheGet c did :=
            reconcileDevice_other c k did (server k) hne
          have hct : cachedTimestamp (reconcileDevice c k (server k)) did
              = cachedTimestamp c did :=
            cachedTimestamp_congr _ _ did hcg
          have IH := ih (reconcileDevice c k (server k)) (acc ++ [(k, ⟨dv, status⟩)])
            c1 res did dev hnd2 h hrest
          constructor
          · intro hge
            exact IH.1 (by rw [hct]; exact hge)
          · intro hlt
            obtain ⟨s, h1, h2, h3⟩ := IH.2 (by rw [hct]; exact hlt)
            exact ⟨s, by rw [← hcg]; exact h1, h2, h3⟩

/-- Running the fetch loop a second time from the cache it produced leaves
that cache unchanged, for a duplicate-free binding list. -/
theorem fetchLoop_idem (server : String → DeviceData) :
    ∀ (bs : List (String × CleverSpaDevice)),
      (bs.map Prod.fst).Nodup →
      ∀ (c : LocalStateCache) (acc acc2 : List (String × CleverSpaDeviceReport)),
      (fetchLoop server bs (fetchLoop server bs c acc).1 acc2).1
        = (fetchLoop server bs c acc).1 := by
  intro bs
  induction bs with
  | nil =>
      intro _ c acc acc2
      simp [fetchLoop]
  | cons hd rest ih =>
      obtain ⟨k, dv⟩ := hd
      intro hnd c acc acc2
      have hcons : (k :: rest.map Prod.fst).Nodup := hnd
      have hk : k ∉ rest.map Prod.fst := (List.nodup_cons.mp hcons).1
      have hnd2 : (rest.map Prod.fst).Nodup := (List.nodup_cons.mp hcons).2
      by_cases hge : (server k).updated_at ≥ cachedTimestamp c k
      · -- the first run accepts the response for the head device
        have hrec : reconcileDevice c k (server k)
            = cacheSet c k (parseDeviceStatus (server k)) :=
          reconcileDevice_fresh c k (server k) hge
        have hget : cacheGet (reconcileDevice c k (server k)) k
            = some (parseDeviceStatus (server k)) := by
          rw [hrec]
          exact cacheGet_cacheSet_self c k _
        have run1 : fetchLoop server ((k, dv) :: rest) c acc
            = fetchLoop server rest (reconcileDevice c k (server k))
                (acc ++ [(k, ⟨dv, parseDeviceStatus (server k)⟩)]) := by
          rw [fetchLoop_cons, hget]
        have L1 : (fetchLoop server ((k, dv) :: rest) c acc).1
            = (fetchLoop server rest (reconcileDevice c k (server k))
                (acc ++ [(k, ⟨dv, parseDeviceStatus (server k)⟩)])).1 := by
          rw [run1]
        rw [L1]
        -- the head entry after the first run and what the replay sees there
        have hmid : cacheGet (fetchLoop server rest (reconcileDevice c k (server k))
            (acc ++ [(k, ⟨dv, parseDeviceStatus (server k)⟩)])).1 k
            = some (parseDeviceStatus (server k)) := by
          rw [fetchLoop_preserve server rest _ _ k hk]
          exact hget
        have hge2 : (server k).updated_at
            ≥ cachedTimestamp (fetchLoop server rest (reconcileDevice c k (server k))
                (acc ++ [(k, ⟨dv, parseDeviceStatus (server k)⟩)])).1 k := by
          rw [cachedTimestamp_eq _ _ _ hmid]
          exact le_refl _
        have hrec2 : reconcileDevice (fetchLoop server rest (reconcileDevice c k (server k))
            (acc ++ [(k, ⟨dv, parseDeviceStatus (server k)⟩)])).1 k (server k)
            = (fetchLoop server rest (reconcileDevice c k (server k))
                (acc ++ [(k, ⟨dv, parseDeviceStatus (server k)⟩)])).1 := by
          rw [reconcileDevice_fresh _ _ _ hge2]
          exact cacheSet_eq_of_get _ _ _ hmid
        have run2 : fetchLoop server ((k, dv) :: rest)
            (fetchLoop server rest (reconcileDevice c k (server k))
              (acc ++ [(k, ⟨dv, parseDeviceStatus (server k)⟩)])).1 acc2
            = fetchLoop server rest
                (fetchLoop server rest (reconcileDevice c k (server k))
                  (acc ++ [(k, ⟨dv, parseDeviceStatus (server k)⟩)])).1
                (acc2 ++ [(k, ⟨dv, parseDeviceStatus (server k)⟩)]) := by
          rw [fetchLoop_cons, hrec2, hmid]
        rw [run2]
        exact ih hnd2 (reconcileDevice c k (server k))
          (acc ++ [(k, ⟨dv, parseDeviceStatus (server k)⟩)])
          (acc2 ++ [(k, ⟨dv, parseDeviceStatus (server k)⟩)])
      · -- the first run rejects the response for the head device
        have hrec : reconcileDevice c k (server k) = c :=
          reconcileDevice_reject c k (server k) hge
        rcases hcg : cacheGet c k with _ | s
        · -- no cache entry either: the loop aborts with KeyError both times
          have run1 : fetchLoop server ((k, dv) :: rest) c acc
              = (c, Except.error (PyError.keyError k)) := by
            rw [fetchLoop_cons, hrec, hcg]
          have L1 : (fetchLoop server ((k, dv) :: rest) c acc).1 = c := by
            rw [run1]
          rw [L1]
          have run2 : fetchLoop server ((k, dv) :: rest) c acc2
              = (c, Except.error (PyError.keyError k)) := by
            rw [fetchLoop_cons, hrec, hcg]
          rw [run2]
        · -- cached entry stays; the replay rejects again
          have run1 : fetchLoop server ((k, dv) :: rest) c acc
              = fetchLoop server rest c (acc ++ [(k, ⟨dv, s⟩)]) := by
            rw [fetchLoop_cons, hrec, hcg]
          have L1 : (fetchLoop server ((k, dv) :: rest) c acc).1
              = (fetchLoop server rest c (acc ++ [(k, ⟨dv, s⟩)])).1 := by
            rw [run1]
          rw [L1]
          have hM : cacheGet (fetchLoop server rest c (acc ++ [(k, ⟨dv, s⟩)])).1 k = some s := by
            rw [fetchLoop_preserve server rest _ _ k hk]
            exact hcg
          have hge2 : ¬ (server k).updated_at
              ≥ cachedTimestamp (fetchLoop server rest c (acc ++ [(k, ⟨dv, s⟩)])).1 k := by
            rw [cachedTimestamp_eq _ _ _ hM]
            rw [cachedTimestamp_eq _ _ _ hcg] at hge
            exact hge
          have hrec2 : reconcileDevice (fetchLoop server rest c (acc ++ [(k, ⟨dv, s⟩)])).1 k
              (server k) = (fetchLoop server rest c (acc ++ [(k, ⟨dv, s⟩)])).1 :=
            reconcileDevice_reject _ _ _ hge2
          have run2 : fetchLoop server ((k, dv) :: rest)
              (fetchLoop server rest c (acc ++ [(k, ⟨dv, s⟩)])).1 acc2
              = fetchLoop server rest (fetchLoop server rest c (acc ++ [(k, ⟨dv, s⟩)])).1
                  (acc2 ++ [(k, ⟨dv, s⟩)]) := by
            rw [fetchLoop_cons, hrec2, hM]
          rw [run2]
          exact ih hnd2 c (acc ++ [(k, ⟨dv, s⟩)]) (acc2 ++ [(k, ⟨dv, s⟩)])

/-- Fetching never changes the binding registry. -/
theorem fetch_data_bindings (server : String → DeviceData) (st : ApiState) :
    (fetch_data server st).1.bindings = st.bindings := by
  unfold fetch_data
  split
  · rfl
  · rfl

/-- A cache entry strictly newer than the server response for its device
survives fetch_data untouched. -/
theorem fetch_data_cache_stale (server : String → DeviceData) (st : ApiState)
    (d : String) (s : CleverSpaDeviceStatus)
    (hc : cacheGet st.local_state_cache d = some s)
    (hts : (server d).updated_at < s.timestamp) :
    cacheGet (fetch_data server st).1.local_state_cache d = some s := by
  unfold fetch_data
  split
  · exact hc
  · exact fetchLoop_stale server st.bindings st.local_state_cache [] d s hc hts

/-- Per-device specification of fetch_data on a duplicate-free binding list:
the greater-or-equal-wins rule together with the reported value. -/
theorem fetch_data_reconcile_spec (server : String → DeviceData) (st : ApiState)
    (st1 : ApiState) (res : List (String × CleverSpaDeviceReport))
    (did : String) (dev : CleverSpaDevice)
    (hnd : (st.bindings.map Prod.fst).Nodup)
    (hmem : (did, dev) ∈ st.bindings)
    (hrun : fetch_data server st = (st1, Except.ok res)) :
    ((server did).updated_at ≥ cachedTimestamp st.local_state_cache did →
       cacheGet st1.local_state_cache did = some (parseDeviceStatus (server did)) ∧
       (did, (⟨dev, parseDeviceStatus (server did)⟩ : CleverSpaDeviceReport)) ∈ res) ∧
    ((server did).updated_at < cachedTimestamp st.local_state_cache did →
       ∃ s, cacheGet st.local_state_cache did = some s ∧
         cacheGet st1.local_state_cache did = some s ∧
         (did, (⟨dev, s⟩ : CleverSpaDeviceReport)) ∈ res) := by
  have hne : ¬ st.bindings.isEmpty = true := by
    cases hb : st.bindings with
    | nil => rw [hb] at hmem; cases hmem
    | cons a l => simp
  rw [fetch_data, if_neg hne, Prod.mk.injEq] at hrun
  obtain ⟨h1, h2⟩ := hrun
  have hloop : fetchLoop server st.bindings st.local_state_cache []
      = ((fetchLoop server st.bindings st.local_state_cache []).1, Except.ok res) := by
    rw [← h2]
  have main := fetchLoop_reconcile server st.bindings st.local_state_cache []
    (fetchLoop server st.bindings st.local_state_cache []).1 res did dev hnd hloop hmem
  have hc1 : st1.local_state_cache
      = (fetchLoop server st.bindings st.local_state_cache []).1 := by
    rw [← h1]
  rw [hc1]
  exact main

/-- Decidable equality for Except results, so the concrete scenarios can be
settled by evaluation. -/
instance {ε α : Type} [DecidableEq ε] [DecidableEq α] : DecidableEq (Except ε α) := fun a b =>
  match a, b with
  | Except.error e1, Except.error e2 => decidable_of_iff (e1 = e2) (by simp)
  | Except.ok a1, Except.ok a2 => decidable_of_iff (a1 = a2) (by simp)
  | Except.error _, Except.ok _ => isFalse (fun hc => Except.noConfusion hc)
  | Except.ok _, Except.error _ => isFalse (fun hc => Except.noConfusion hc)

/-
Concrete fixtures used to instantiate the theorems below, mirroring the
end-to-end scenario of the spec: one device abc with alias Spa and product X1,
first fetch carrying updated_at 100 and the sample attribute values.
-/

/-- Sample device. -/
def devA : CleverSpaDevice := ⟨"abc", "Spa", "X1"⟩

/-- Sample wire attributes. -/
def attrsA : DeviceAttrs := ⟨30, 35, 1, 1, 0, 0⟩

/-- Sample fresh server response. -/
def dataA : DeviceData := ⟨100, attrsA⟩

/-- Status obtained by parsing dataA. -/
def statusA : CleverSpaDeviceStatus :=
  ⟨100, 30, 35, TemperatureUnit.CELSIUS, true, true, false, true, [], none⟩

/-- Server that always answers with the fresh response dataA. -/
def serverA : String → DeviceData := fun _ => dataA

/-- Server that always answers with a stale response (updated_at 0). -/
def serverStale : String → DeviceData := fun _ => ⟨0, attrsA⟩

/-- Client state holding the sample device with statusA cached. -/
def stA : ApiState := ⟨[("abc", devA)], [("abc", statusA)], []⟩

/-- Cached status with target temperature 30, before a set_target_temp command. -/
def statusB : CleverSpaDeviceStatus :=
  ⟨100, 30, 30, TemperatureUnit.CELSIUS, true, true, false, true, [], none⟩

/-- Client state holding the sample device with statusB cached. -/
def stB : ApiState := ⟨[("abc", devA)], [("abc", statusB)], []⟩

/-- Status after the optimistic write of set_target_temp(abc, 35) at time 500. -/
def statusB35 : CleverSpaDeviceStatus :=
  ⟨500, 30, 35, TemperatureUnit.CELSIUS, true, true, false, true, [], none⟩

/-- Status after the heater-off optimistic write of set_heat at time 500. -/
def statusHeatOff : CleverSpaDeviceStatus :=
  ⟨500, 30, 35, TemperatureUnit.CELSIUS, false, true, false, true, [], none⟩

/-- Cached status with the bubbles running, for the filter-off scenario. -/
def statusBub : CleverSpaDeviceStatus :=
  ⟨100, 30, 35, TemperatureUnit.CELSIUS, true, true, true, true, [], none⟩

/-- Client state holding the sample device with statusBub cached. -/
def stBub : ApiState := ⟨[("abc", devA)], [("abc", statusBub)], []⟩

/-- Status that set_filter(abc, off) at time 500 stores for statusBub. -/
def statusFilterOff : CleverSpaDeviceStatus :=
  ⟨500, 30, 35, TemperatureUnit.CELSIUS, false, false, true, true, [], some false⟩

/-- Identity-provider rejection: HTTP 400 with a decodable error body. -/
def resp400 : AuthHttpResponse := ⟨400, some (AuthJson.errorJson "INVALID_PASSWORD")⟩

/-- Profile store stub; never reached in the failure scenarios. -/
def profileStoreStub : String → String → ProfileHttpResponse := fun _ _ => ⟨200, none⟩

/-- C1: for every device in the binding registry, fetch_data compares the
response timestamp against the cached status timestamp (0 when the cache has
no entry); if the response timestamp is greater than or equal to the cached
one the entry is overwritten with the parsed response, which is reported,
otherwise the response is discarded and the cached value is kept and
reported. -/
theorem fetch_data_ge_wins (server : String → DeviceData) (st : ApiState)
    (st1 : ApiState) (res : List (String × CleverSpaDeviceReport))
    (did : String) (dev : CleverSpaDevice)
    (hnd : (st.bindings.map Prod.fst).Nodup)
    (hmem : (did, dev) ∈ st.bindings)
    (hrun : fetch_data server st = (st1, Except.ok res)) :
    ((server did).updated_at ≥ cachedTimestamp st.local_state_cache did →
       cacheGet st1.local_state_cache did = some (parseDeviceStatus (server did)) ∧
       (did, (⟨dev, parseDeviceStatus (server did)⟩ : CleverSpaDeviceReport)) ∈ res) ∧
    ((server did).updated_at < cachedTimestamp st.local_state_cache did →
       ∃ s, cacheGet st.local_state_cache did = some s ∧
         cacheGet st1.local_state_cache did = some s ∧
         (did, (⟨dev, s⟩ : CleverSpaDeviceReport)) ∈ res) :=
  fetch_data_reconcile_spec server st st1 res did dev hnd hmem hrun

/-- Witness for fetch_data_ge_wins: the sample fetch accepts the equal
timestamp and stores and reports the parsed response. -/
theorem fetch_data_ge_wins_witness :
    cacheGet stA.local_state_cache "abc" = some (parseDeviceStatus (serverA "abc")) ∧
    ("abc", (⟨devA, parseDeviceStatus (serverA "abc")⟩ : CleverSpaDeviceReport))
      ∈ [("abc", (⟨devA, statusA⟩ : CleverSpaDeviceReport))] :=
  (fetch_data_ge_wins serverA stA stA [("abc", ⟨devA, statusA⟩)] "abc" devA
    (by decide) (by decide) (by decide)).1 (by decide)

/-- C3: reconciliation never regresses: a cache entry whose timestamp is
strictly newer than the server response for its device is bitwise unchanged
by fetch_data. -/
theorem fetch_data_never_regresses (server : String → DeviceData) (st : ApiState)
    (d : String) (s1 : CleverSpaDeviceStatus)
    (hcache : cacheGet st.local_state_cache d = some s1)
    (hstale : (server d).updated_at < s1.timestamp) :
    cacheGet (fetch_data server st).1.local_state_cache d = some s1 :=
  fetch_data_cache_stale server st d s1 hcache hstale

/-- Witness for fetch_data_never_regresses: statusA (timestamp 100) survives
a fetch against the stale server (timestamp 0). -/
theorem fetch_data_never_regresses_witness :
    cacheGet (fetch_data serverStale stA).1.local_state_cache "abc" = some statusA :=
  fetch_data_never_regresses serverStale stA "abc" statusA (by decide) (by decide)

/-- C2: the optimistic write of set_target_temp(d, 35) survives a subsequent
fetch_data whose server response for d carries a timestamp strictly older
than the command time: the report for d still shows temp_set 35. -/
theorem set_target_temp_survives_stale_read (server : String → DeviceData)
    (now : Int) (st : ApiState) (d : String) (dev : CleverSpaDevice)
    (s : CleverSpaDeviceStatus) (st1 : ApiState) (e1 : Option PyError)
    (st2 : ApiState) (res : List (String × CleverSpaDeviceReport))
    (hnd : (st.bindings.map Prod.fst).Nodup)
    (hmem : (d, dev) ∈ st.bindings)
    (hcache : cacheGet st.local_state_cache d = some s)
    (hstale : (server d).updated_at < now)
    (hcmd : set_target_temp server now st d 35 = (st1, e1))
    (hfetch : fetch_data server st1 = (st2, Except.ok res)) :
    ∃ r, (d, (⟨dev, r⟩ : CleverSpaDeviceReport)) ∈ res ∧ r.temp_set = 35 := by
  simp only [set_target_temp] at hcmd
  split at hcmd
  · rename_i hnone
    rw [hcache] at hnone
    cases hnone
  · rename_i s0 hsome
    rw [hcache] at hsome
    have hss : s = s0 := by
      injection hsome
    subst hss
    rw [Prod.mk.injEq] at hcmd
    obtain ⟨h1, _⟩ := hcmd
    -- the cache entry of d after the command, inner fetch included
    have hKeep : cacheGet st1.local_state_cache d
        = some { s with timestamp := now, temp_set := 35 } := by
      rw [← h1]
      refine fetch_data_cache_stale server _ d _ ?_ ?_
      · exact cacheGet_cacheSet_self st.local_state_cache d _
      · exact hstale
    have hBind : st1.bindings = st.bindings := by
      rw [← h1]
      exact fetch_data_bindings server _
    -- the follow-up fetch rejects the stale response and reports the cache
    have spec := fetch_data_reconcile_spec server st1 st2 res d dev
      (by rw [hBind]; exact hnd) (by rw [hBind]; exact hmem) hfetch
    have hlt : (server d).updated_at < cachedTimestamp st1.local_state_cache d := by
      rw [cachedTimestamp_eq _ _ _ hKeep]
      exact hstale
    obtain ⟨s2, hA, hB, hC⟩ := spec.2 hlt
    have hs2 : s2 = { s with timestamp := now, temp_set := 35 } := by
      rw [hKeep] at hA
      injection hA with hh
      exact hh.symm
    subst hs2
    exact ⟨_, hC, rfl⟩

/-- Witness for set_target_temp_survives_stale_read on the concrete scenario
with cached target 30, command at time 500 and a stale server. -/
theorem set_target_temp_survives_stale_read_witness :
    ∃ r, ("abc", (⟨devA, r⟩ : CleverSpaDeviceReport))
        ∈ [("abc", (⟨devA, statusB35⟩ : CleverSpaDeviceReport))] ∧ r.temp_set = 35 :=
  set_target_temp_survives_stale_read serverStale 500 stB "abc" devA statusB
    ⟨[("abc", devA)], [("abc", statusB35)], [(PyKey.str "abc", "Temperature_setup", 35)]⟩
    none
    ⟨[("abc", devA)], [("abc", statusB35)], [(PyKey.str "abc", "Temperature_setup", 35)]⟩
    [("abc", ⟨devA, statusB35⟩)]
    (by decide) (by decide) (by decide) (by decide) (by decide) (by decide)

/-- C9: reconciliation is idempotent: running fetch_data a second time with
the identical server responses leaves every cache entry exactly as it was
after the first run. -/
theorem fetch_data_idempotent (server : String → DeviceData) (st : ApiState) (d : String)
    (hnd : (st.bindings.map Prod.fst).Nodup) :
    cacheGet (fetch_data server (fetch_data server st).1).1.local_state_cache d
      = cacheGet (fetch_data server st).1.local_state_cache d := by
  by_cases hb : st.bindings.isEmpty = true
  · have hst : (fetch_data server st).1 = st := by
      rw [fetch_data, if_pos hb]
    rw [hst, hst]
  · have h1 : (fetch_data server st).1
        = { st with local_state_cache := (fetchLoop server st.bindings st.local_state_cache []).1 } := by
      rw [fetch_data, if_neg hb]
    rw [h1]
    have hb2 : ¬ ({ st with local_state_cache :=
        (fetchLoop server st.bindings st.local_state_cache []).1 } : ApiState).bindings.isEmpty
        = true := hb
    have h2 : (fetch_data server { st with local_state_cache :=
        (fetchLoop server st.bindings st.local_state_cache []).1 }).1
        = { st with local_state_cache :=
            (fetchLoop server st.bindings
              (fetchLoop server st.bindings st.local_state_cache []).1 []).1 } := by
      rw [fetch_data, if_neg hb2]
    rw [h2]
    show cacheGet (fetchLoop server st.bindings
        (fetchLoop server st.bindings st.local_state_cache []).1 []).1 d
      = cacheGet (fetchLoop server st.bindings st.local_state_cache []).1 d
    rw [fetchLoop_idem server st.bindings hnd st.local_state_cache [] []]

/-- Witness for fetch_data_idempotent on the sample state and server. -/
theorem fetch_data_idempotent_witness :
    cacheGet (fetch_data serverA (fetch_data serverA stA).1).1.local_state_cache "abc"
      = cacheGet (fetch_data serverA stA).1.local_state_cache "abc" :=
  fetch_data_idempotent serverA stA "abc" (by decide)

/-- C8: the cache mutation of set_bubbles sets only timestamp and
filter_power (the bubbles value, forced true when turning on, lands in
filter_power), every other field, bubble_power included, is untouched, and
set_bubbles then runs an immediate fetch on the mutated state. -/
theorem set_bubbles_cache_frame (server : String → DeviceData) (now : Int) (st : ApiState)
    (device_id : String) (bubbles : Bool) (s : CleverSpaDeviceStatus)
    (hcache : cacheGet st.local_state_cache device_id = some s) :
    bubblesMutation now s bubbles
        = { s with timestamp := now, filter_power := bubbles } ∧
    (bubblesMutation now s bubbles).bubble_power = s.bubble_power ∧
    set_bubbles server now st device_id bubbles
      = ((fetch_data server
            { bindings := st.bindings,
              local_state_cache :=
                cacheSet st.local_state_cache device_id (bubblesMutation now s bubbles),
              posts := st.posts ++ [(PyKey.str device_id, "Bubble", if bubbles then 1 else 0)] }).1,
         errOf (fetch_data server
            { bindings := st.bindings,
              local_state_cache :=
                cacheSet st.local_state_cache device_id (bubblesMutation now s bubbles),
              posts := st.posts ++ [(PyKey.str device_id, "Bubble", if bubbles then 1 else 0)] }).2) := by
  refine ⟨?_, ?_, ?_⟩
  · cases bubbles <;> simp [bubblesMutation]
  · cases bubbles <;> simp [bubblesMutation]
  · simp only [set_bubbles]
    rw [hcache]

/-- Witness for set_bubbles_cache_frame turning the bubbles on from statusA. -/
theorem set_bubbles_cache_frame_witness :
    bubblesMutation 500 statusA true
        = { statusA with timestamp := 500, filter_power := true } ∧
    (bubblesMutation 500 statusA true).bubble_power = statusA.bubble_power ∧
    set_bubbles serverA 500 stA "abc" true
      = ((fetch_data serverA
            { bindings := stA.bindings,
              local_state_cache :=
                cacheSet stA.local_state_cache "abc" (bubblesMutation 500 statusA true),
              posts := stA.posts ++ [(PyKey.str "abc", "Bubble", if true then 1 else 0)] }).1,
         errOf (fetch_data serverA
            { bindings := stA.bindings,
              local_state_cache :=
                cacheSet stA.local_state_cache "abc" (bubblesMutation 500 statusA true),
              posts := stA.posts ++ [(PyKey.str "abc", "Bubble", if true then 1 else 0)] }).2) :=
  set_bubbles_cache_frame serverA 500 stA "abc" true statusA (by decide)

/-- C4: for every DeviceStatus and current time, online is true iff the
timestamp is strictly less than 1000 seconds old; a status exactly 1000
seconds old is offline, one 999 seconds old is online. -/
theorem online_within_window (s : CleverSpaDeviceStatus) (now : Int) :
    (s.online now = true ↔ now - s.timestamp < 1000) ∧
    (now - s.timestamp = 1000 → s.online now = false) ∧
    (now - s.timestamp = 999 → s.online now = true) := by
  simp only [CleverSpaDeviceStatus.online, CONNECTIVITY_TIMEOUT, decide_eq_true_eq,
    decide_eq_false_iff_not]
  omega

/-- Witness for online_within_window: statusA (timestamp 100) is offline at
time 1100 and online at time 1099. -/
theorem online_within_window_witness :
    statusA.online 1100 = false ∧ statusA.online 1099 = true :=
  ⟨(online_within_window statusA 1100).2.1 (by decide),
   (online_within_window statusA 1099).2.2 (by decide)⟩

/-- C10: the filter_age written by an accepted fetch is the boolean result of
comparing the wire attribute Time_filter with 0, true exactly when
Time_filter is 0, not the integer Time_filter value itself. -/
theorem parse_filter_age_boolean (latest_data : DeviceData) :
    (parseDeviceStatus latest_data).filter_age = true ↔ latest_data.attr.Time_filter = 0 := by
  simp [parseDeviceStatus]

/-- C5 (code bug): set_heat(abc, off) applies the optimistic heater-off write
and fetches, but the deferred filter shutdown passes the cached status object
where set_filter expects a device id string: the Filter POST is keyed by the
status object rather than abc, the dict access then raises TypeError, and no
filter-off for device abc is ever issued or applied (filter_power stays on in
the cache). -/
theorem set_heat_off_cooldown_misroutes :
    (set_heat serverStale 500 530 stA "abc" false).2
        = some (PyError.typeError "unhashable type: CleverSpaDeviceStatus") ∧
    (set_heat serverStale 500 530 stA "abc" false).1.posts
        = [(PyKey.str "abc", "Heater", 0), (PyKey.status statusHeatOff, "Filter", 0)] ∧
    (PyKey.str "abc", "Filter", 0) ∉ (set_heat serverStale 500 530 stA "abc" false).1.posts ∧
    cacheGet (set_heat serverStale 500 530 stA "abc" false).1.local_state_cache "abc"
        = some statusHeatOff := by
  decide

/-- C6 (code bug): set_filter(abc, off) sets timestamp, filter_power and
heat_power as claimed and performs no fetch, but it does not force
bubble_power to false: it writes false into the dynamically created attribute
wave_power, which no other code reads, and the cached bubble_power stays
true. -/
theorem set_filter_off_keeps_bubble_power :
    (set_filter 500 stBub (PyKey.str "abc") false).2 = none ∧
    cacheGet (set_filter 500 stBub (PyKey.str "abc") false).1.local_state_cache "abc"
        = some statusFilterOff ∧
    statusFilterOff.bubble_power = true ∧
    statusFilterOff.heat_power = false ∧
    statusFilterOff.filter_power = false ∧
    statusFilterOff.timestamp = 500 ∧
    statusFilterOff.wave_power = some false ∧
    (set_filter 500 stBub (PyKey.str "abc") false).1.posts = [(PyKey.str "abc", "Filter", 0)] := by
  decide

/-- C7 counterexample: on an identity-provider 400 carrying the upstream
message INVALID_PASSWORD, get_user_token fails with the generic HTTP status
error, not with an AuthError carrying that message. -/
theorem get_user_token_no_auth_error :
    get_user_token resp400 profileStoreStub = Except.error (PyError.clientResponseError 400) ∧
    get_user_token resp400 profileStoreStub
        ≠ Except.error (PyError.authError "INVALID_PASSWORD") := by
  decide

/-- C7 (amended): whenever the identity-provider exchange returns a
non-success status, get_user_token fails with the generic HTTP status error
for that status, returning no token; the decoded provider message is
discarded rather than wrapped in an AuthError. -/
theorem get_user_token_nonsuccess_generic (authResp : AuthHttpResponse)
    (profileStore : String → String → ProfileHttpResponse)
    (h : HttpOk authResp.status = false) :
    get_user_token authResp profileStore
      = Except.error (PyError.clientResponseError authResp.status) := by
  unfold get_user_token raise_for_status
  rw [h]
  cases authResp.json <;> simp

/-- Witness for get_user_token_nonsuccess_generic at the concrete 400
response. -/
theorem get_user_token_nonsuccess_generic_witness :
    get_user_token resp400 profileStoreStub = Except.error (PyError.clientResponseError 400) :=
  get_user_token_nonsuccess_generic resp400 profileStoreStub (by decide)

end ClevererSpa
